import Mathlib

/-!
Verification of the caching stock-quote proxy in `src/main.py` against its
natural-language specification.

Modelling conventions:
* Python strings are lists of Unicode code points (`PyStr`).  `str.upper` and
  `str.strip` are modelled on the ASCII range actually exercised by ticker
  symbols; `str.split(",")` keeps empty segments, as in Python.
* Timestamps are integers (seconds); `datetime.now() - timestamp <
  timedelta(minutes=5)` becomes `now - t < CACHE_TTL_MINUTES * 60`.  The two
  `datetime.now()` calls inside one request are modelled by a single request
  time `now`.
* The module-level `cache` dict is threaded explicitly: every endpoint takes
  the cache before the request and returns the cache after it.  A Python dict
  is an association list; assignment overwrites in place.
* JSON payloads are an opaque `Json` value with Python truthiness.
* HTTP is replaced by an environment `Env` mapping each request the code can
  issue to the upstream's (already parsed) response; of the parsed body only
  the `"results"` field is consumed by the code, so a response is its status
  plus that optional list.  Raised `HTTPException`s become `Except.error`.
* Each endpoint additionally returns the list of upstream calls it issued
  (the tickers fetched), used to count upstream traffic.
-/

/-- A Python string, as its list of Unicode code points. -/
abbrev PyStr := List Nat

/-- Embed a Lean string literal as a `PyStr`. -/
def strLit (s : String) : PyStr := s.data.map Char.toNat

/-- The code points stripped by Python `str.strip()` (ASCII whitespace). -/
def pyIsSpace (c : Nat) : Bool := c == 32 || (9 ≤ c && c ≤ 13)

/-- Python `str.upper` on one code point (ASCII range). -/
def pyUpperChar (c : Nat) : Nat := if 97 ≤ c ∧ c ≤ 122 then c - 32 else c

/-- Python `s.upper()`. -/
def pyUpper (s : PyStr) : PyStr := s.map pyUpperChar

/-- Python `s.strip()`: drop whitespace from the front, then from the back. -/
def pyStrip (s : PyStr) : PyStr :=
  List.rdropWhile pyIsSpace (s.dropWhile pyIsSpace)

/-- `ticker.upper().strip()`, the normalization used by the single endpoints. -/
def pyNormalize (s : PyStr) : PyStr := pyStrip (pyUpper s)

/-- `t.strip().upper()`, the normalization used by `get_multiple_quotes`. -/
def pyNormalizeBatch (s : PyStr) : PyStr := pyUpper (pyStrip s)

/-- Python `s.split(sep)` for a one-character separator: keeps empty
segments, and splitting the empty string yields one empty segment. -/
def pySplit (sep : Nat) : PyStr → List PyStr
  | [] => [[]]
  | c :: cs =>
    match pySplit sep cs with
    | [] => if c = sep then [[], []] else [[c]]
    | h :: t => if c = sep then [] :: h :: t else (c :: h) :: t

/-- Opaque JSON-like payload values. -/
inductive Json where
  | null
  | bool (b : Bool)
  | num (n : Int)
  | str (s : String)
  | arr (elems : List Json)
  | obj (fields : List (String × Json))

/-- Python truthiness of a JSON value (`if cached:` on a payload). -/
def truthy : Json → Bool
  | .null => false
  | .bool b => b
  | .num n => n != 0
  | .str s => !s.isEmpty
  | .arr elems => !elems.isEmpty
  | .obj fields => !fields.isEmpty

/-- Python truthiness of `Optional[dict]` (`None` is falsy). -/
def truthyOpt : Option Json → Bool
  | none => false
  | some d => truthy d

/-- The module-level `cache` dict: keys to `(data, timestamp)` pairs. -/
abbrev Cache := List (PyStr × Json × Int)

/-- Python dict lookup `cache[key]` / `key in cache`. -/
def dictGet : Cache → PyStr → Option (Json × Int)
  | [], _ => none
  | (k', v) :: rest, k => if k' = k then some v else dictGet rest k

/-- Python dict assignment `cache[key] = v`: overwrite in place, else append. -/
def dictSet : Cache → PyStr → Json × Int → Cache
  | [], k, v => [(k, v)]
  | (k', v') :: rest, k, v =>
    if k' = k then (k, v) :: rest else (k', v') :: dictSet rest k v

/-- `CACHE_TTL_MINUTES = 5`. -/
def CACHE_TTL_MINUTES : Int := 5

/-- `get_from_cache(key)`: the stored data if still within the TTL. -/
def get_from_cache (c : Cache) (key : PyStr) (now : Int) : Option Json :=
  match dictGet c key with
  | some (data, timestamp) =>
    if now - timestamp < CACHE_TTL_MINUTES * 60 then some data else none
  | none => none

/-- `save_to_cache(key, data)`: store `(data, datetime.now())`. -/
def save_to_cache (c : Cache) (key : PyStr) (data : Json) (now : Int) : Cache :=
  dictSet c key (data, now)

/-- An upstream HTTP response, already parsed: the status code and the
`"results"` field of the JSON body (`none` when the key is absent). -/
structure UpstreamResponse where
  status : Int
  results : Option (List Json)

/-- The upstream service (BrAPI), as a map from each request shape the code
can issue to the response it returns. -/
structure Env where
  quoteResp : PyStr → UpstreamResponse
  quoteDetailsResp : PyStr → UpstreamResponse
  historicalResp : PyStr → PyStr → UpstreamResponse

/-- A raised `HTTPException(status_code, detail)`. -/
structure HTTPError where
  status : Int
  detail : PyStr

/-- `detail="Erro ao consultar BrAPI"`. -/
def brapiErrorDetail : PyStr := strLit "Erro ao consultar BrAPI"

/-- `detail=f"Ticker {ticker} não encontrado"`. -/
def notFoundDetail (ticker : PyStr) : PyStr :=
  strLit "Ticker " ++ ticker ++ strLit " não encontrado"

/-- `fetch_quote(ticker)`. -/
def fetch_quote (env : Env) (ticker : PyStr) : Except HTTPError Json :=
  let response := env.quoteResp ticker
  if response.status ≠ 200 then
    .error ⟨response.status, brapiErrorDetail⟩
  else
    match response.results with
    | none => .error ⟨404, notFoundDetail ticker⟩
    | some [] => .error ⟨404, notFoundDetail ticker⟩
    | some (x :: _) => .ok x

/-- `fetch_quote_with_details(ticker)`. -/
def fetch_quote_with_details (env : Env) (ticker : PyStr) : Except HTTPError Json :=
  let response := env.quoteDetailsResp ticker
  if response.status ≠ 200 then
    .error ⟨response.status, brapiErrorDetail⟩
  else
    match response.results with
    | none => .error ⟨404, notFoundDetail ticker⟩
    | some [] => .error ⟨404, notFoundDetail ticker⟩
    | some (x :: _) => .ok x

/-- `fetch_historical(ticker, range_period)`. -/
def fetch_historical (env : Env) (ticker : PyStr) (range_period : PyStr) :
    Except HTTPError Json :=
  let response := env.historicalResp ticker range_period
  if response.status ≠ 200 then
    .error ⟨response.status, brapiErrorDetail⟩
  else
    match response.results with
    | none => .error ⟨404, notFoundDetail ticker⟩
    | some [] => .error ⟨404, notFoundDetail ticker⟩
    | some (x :: _) => .ok x

/-- A successful endpoint response `{"source": ..., "data": ...}`. -/
structure QuoteResponse where
  source : String
  data : Json

/-- The cache key `f"quote_{ticker}"`. -/
def quoteKey (ticker : PyStr) : PyStr := strLit "quote_" ++ ticker

/-- The cache key `f"quote_full_{ticker}"`. -/
def quoteFullKey (ticker : PyStr) : PyStr := strLit "quote_full_" ++ ticker

/-- The cache key `f"history_{ticker}_{range}"`. -/
def historyKey (ticker rng : PyStr) : PyStr :=
  strLit "history_" ++ ticker ++ strLit "_" ++ rng

/-- `GET /quote/{ticker}` (`get_quote`): result, cache after the request,
and the tickers fetched upstream during the request. -/
def get_quote (env : Env) (c : Cache) (now : Int) (ticker0 : PyStr) :
    Except HTTPError QuoteResponse × Cache × List PyStr :=
  let ticker := pyNormalize ticker0
  let cache_key := quoteKey ticker
  let fetchPath :=
    match fetch_quote env ticker with
    | .error e => (.error e, c, [ticker])
    | .ok data => (.ok ⟨"api", data⟩, save_to_cache c cache_key data now, [ticker])
  match get_from_cache c cache_key now with
  | some cached => if truthy cached then (.ok ⟨"cache", cached⟩, c, []) else fetchPath
  | none => fetchPath

/-- `GET /quote/{ticker}/full` (`get_quote_full`). -/
def get_quote_full (env : Env) (c : Cache) (now : Int) (ticker0 : PyStr) :
    Except HTTPError QuoteResponse × Cache × List PyStr :=
  let ticker := pyNormalize ticker0
  let cache_key := quoteFullKey ticker
  let fetchPath :=
    match fetch_quote_with_details env ticker with
    | .error e => (.error e, c, [ticker])
    | .ok data => (.ok ⟨"api", data⟩, save_to_cache c cache_key data now, [ticker])
  match get_from_cache c cache_key now with
  | some cached => if truthy cached then (.ok ⟨"cache", cached⟩, c, []) else fetchPath
  | none => fetchPath

/-- `GET /quote/{ticker}/history` (`get_history`). -/
def get_history (env : Env) (c : Cache) (now : Int) (ticker0 rng : PyStr) :
    Except HTTPError QuoteResponse × Cache × List PyStr :=
  let ticker := pyNormalize ticker0
  let cache_key := historyKey ticker rng
  let fetchPath :=
    match fetch_historical env ticker rng with
    | .error e => (.error e, c, [ticker])
    | .ok data => (.ok ⟨"api", data⟩, save_to_cache c cache_key data now, [ticker])
  match get_from_cache c cache_key now with
  | some cached => if truthy cached then (.ok ⟨"cache", cached⟩, c, []) else fetchPath
  | none => fetchPath

/-- One element of the `results` list of `get_multiple_quotes`. -/
inductive BatchEntry where
  | ok (ticker : PyStr) (source : String) (data : Json)
  | err (ticker : PyStr) (error : HTTPError)

/-- The `"ticker"` field of a batch entry. -/
def entryTicker : BatchEntry → PyStr
  | .ok t _ _ => t
  | .err t _ => t

/-- The body of the `for ticker in ticker_list` loop of
`get_multiple_quotes`, over an already normalized ticker list. -/
def quotesLoop (env : Env) (now : Int) : Cache → List PyStr →
    List BatchEntry × Cache × List PyStr
  | c, [] => ([], c, [])
  | c, ticker :: rest =>
    let step : BatchEntry × Cache × List PyStr :=
      let cache_key := quoteKey ticker
      let fetchPath :=
        match fetch_quote env ticker with
        | .error e => (.err ticker e, c, [ticker])
        | .ok data =>
          (.ok ticker "api" data, save_to_cache c cache_key data now, [ticker])
      match get_from_cache c cache_key now with
      | some cached =>
        if truthy cached then (.ok ticker "cache" cached, c, []) else fetchPath
      | none => fetchPath
    let tail := quotesLoop env now step.2.1 rest
    (step.1 :: tail.1, tail.2.1, step.2.2 ++ tail.2.2)

/-- `GET /quotes?tickers=...` (`get_multiple_quotes`). -/
def get_multiple_quotes (env : Env) (c : Cache) (now : Int) (tickers : PyStr) :
    List BatchEntry × Cache × List PyStr :=
  let ticker_list := (pySplit 44 tickers).map pyNormalizeBatch
  quotesLoop env now c ticker_list

/-- A logical request: kind, normalized ticker, and for history the range. -/
inductive Req where
  | quote (ticker : PyStr)
  | quote_full (ticker : PyStr)
  | history (ticker : PyStr) (rng : PyStr)
deriving DecidableEq

/-- The cache key computed by the endpoints for a logical request. -/
def cacheKeyOf : Req → PyStr
  | .quote t => quoteKey t
  | .quote_full t => quoteFullKey t
  | .history t r => historyKey t r

/-- No underscore (code point 95) in the ticker, nor in a history range. -/
def underscoreFree : Req → Prop
  | .quote t => 95 ∉ t
  | .quote_full t => 95 ∉ t
  | .history t r => 95 ∉ t ∧ 95 ∉ r

/-- Sample upstream: always HTTP 200 with one non-empty payload. -/
def envOk : Env where
  quoteResp := fun _ => ⟨200, some [Json.obj [("regularMarketPrice", Json.num 37)]]⟩
  quoteDetailsResp := fun _ => ⟨200, some [Json.obj [("priceEarnings", Json.num 9)]]⟩
  historicalResp := fun _ _ => ⟨200, some [Json.obj [("historicalDataPrice", Json.num 5)]]⟩

/-- Sample upstream: always HTTP 200 whose first result is the empty object. -/
def envFalsy : Env where
  quoteResp := fun _ => ⟨200, some [Json.obj []]⟩
  quoteDetailsResp := fun _ => ⟨200, some [Json.obj []]⟩
  historicalResp := fun _ _ => ⟨200, some [Json.obj []]⟩

/-- Sample upstream: always HTTP 500. -/
def envDown : Env where
  quoteResp := fun _ => ⟨500, none⟩
  quoteDetailsResp := fun _ => ⟨500, none⟩
  historicalResp := fun _ _ => ⟨500, none⟩

/-- Sample upstream: HTTP 200 with an empty `results` list. -/
def envNoResults : Env where
  quoteResp := fun _ => ⟨200, some []⟩
  quoteDetailsResp := fun _ => ⟨200, some []⟩
  historicalResp := fun _ _ => ⟨200, some []⟩

/-- Sample upstream: HTTP 200 with no `results` key in the body. -/
def envNoKey : Env where
  quoteResp := fun _ => ⟨200, none⟩
  quoteDetailsResp := fun _ => ⟨200, none⟩
  historicalResp := fun _ _ => ⟨200, none⟩

/-- Sample upstream for the batch test: ticker `BAD` gets an empty `results`
list, every other ticker a non-empty payload. -/
def envBatch : Env where
  quoteResp := fun t =>
    if t = strLit "BAD" then ⟨200, some []⟩
    else ⟨200, some [Json.obj [("close", Json.num 1)]]⟩
  quoteDetailsResp := fun _ => ⟨200, some []⟩
  historicalResp := fun _ _ => ⟨200, some []⟩

/-! ### Helper lemmas about the cache dictionary -/

theorem dictGet_dictSet_self (m : Cache) (k : PyStr) (v : Json × Int) :
    dictGet (dictSet m k v) k = some v := by
  induction m with
  | nil => simp [dictSet, dictGet]
  | cons hd rest ih =>
    obtain ⟨k₀, v₀⟩ := hd
    by_cases hk : k₀ = k
    · simp [dictSet, hk, dictGet]
    · simp [dictSet, hk, dictGet, ih]

theorem dictGet_dictSet_ne (m : Cache) (k k' : PyStr) (v : Json × Int)
    (h : k' ≠ k) : dictGet (dictSet m k v) k' = dictGet m k' := by
  induction m with
  | nil =>
    simp only [dictSet, dictGet]
    rw [if_neg (fun hh => h hh.symm)]
  | cons hd rest ih =>
    obtain ⟨k₀, v₀⟩ := hd
    by_cases hk : k₀ = k
    · subst hk
      simp only [dictSet, if_pos rfl, dictGet]
      rw [if_neg (fun hh => h hh.symm), if_neg (fun hh => h hh.symm)]
    · simp only [dictSet, if_neg hk, dictGet]
      by_cases hk' : k₀ = k'
      · rw [if_pos hk', if_pos hk']
      · rw [if_neg hk', if_neg hk', ih]

theorem get_from_cache_lookup (c : Cache) (k : PyStr) (now : Int) (d : Json)
    (ts : Int) (h : dictGet c k = some (d, ts)) :
    get_from_cache c k now =
      if now - ts < CACHE_TTL_MINUTES * 60 then some d else none := by
  unfold get_from_cache
  rw [h]

theorem get_from_cache_absent (c : Cache) (k : PyStr) (now : Int)
    (h : dictGet c k = none) : get_from_cache c k now = none := by
  unfold get_from_cache
  rw [h]

/-! ### Helper lemmas about normalization -/

theorem pyUpperChar_idem (c : Nat) : pyUpperChar (pyUpperChar c) = pyUpperChar c := by
  unfold pyUpperChar
  split_ifs <;> omega

theorem pyIsSpace_upperChar (c : Nat) : pyIsSpace (pyUpperChar c) = pyIsSpace c := by
  unfold pyIsSpace pyUpperChar
  split_ifs with h
  · rw [Bool.eq_iff_iff]
    simp only [Bool.or_eq_true, Bool.and_eq_true, beq_iff_eq, decide_eq_true_eq]
    omega
  · rfl

theorem map_dropWhile (f : Nat → Nat) (p : Nat → Bool) (hp : ∀ c, p (f c) = p c) :
    ∀ l : List Nat, (l.dropWhile p).map f = (l.map f).dropWhile p := by
  intro l
  induction l with
  | nil => rfl
  | cons c cs ih =>
    simp only [List.map_cons, List.dropWhile_cons, hp]
    cases hpc : p c <;> simp [hpc, ih]

theorem map_rdropWhile (f : Nat → Nat) (p : Nat → Bool) (hp : ∀ c, p (f c) = p c)
    (l : List Nat) : (List.rdropWhile p l).map f = List.rdropWhile p (l.map f) := by
  unfold List.rdropWhile
  rw [List.map_reverse, map_dropWhile f p hp, List.map_reverse]

theorem dropWhile_rdropWhile_of_self (p : Nat → Bool) (u : List Nat)
    (hu : u.dropWhile p = u) :
    (List.rdropWhile p u).dropWhile p = List.rdropWhile p u := by
  cases hr : List.rdropWhile p u with
  | nil => rfl
  | cons a t =>
    have hpre : List.rdropWhile p u <+: u := List.rdropWhile_prefix p u
    obtain ⟨r, hrr⟩ := hpre
    rw [hr] at hrr
    have hpa : p a = false := by
      rw [← hrr, List.cons_append, List.dropWhile_cons] at hu
      by_contra hcon
      have hpa' : p a = true := by revert hcon; cases p a <;> simp
      rw [if_pos hpa'] at hu
      have hlen := congrArg List.length hu
      have hle : (List.dropWhile p (t ++ r)).length ≤ (t ++ r).length :=
        (List.dropWhile_sublist p).length_le
      simp only [List.length_cons] at hlen
      omega
    rw [List.dropWhile_cons, if_neg (by simp [hpa])]

theorem pyStrip_idem (s : PyStr) : pyStrip (pyStrip s) = pyStrip s := by
  unfold pyStrip
  rw [dropWhile_rdropWhile_of_self pyIsSpace _ (List.dropWhile_idempotent pyIsSpace s),
    List.rdropWhile_idempotent]

theorem pyUpper_idem (s : PyStr) : pyUpper (pyUpper s) = pyUpper s := by
  unfold pyUpper
  rw [List.map_map]
  exact List.map_congr_left fun a _ => pyUpperChar_idem a

theorem pyUpper_strip_comm (s : PyStr) : pyUpper (pyStrip s) = pyStrip (pyUpper s) := by
  unfold pyUpper pyStrip
  rw [map_rdropWhile pyUpperChar pyIsSpace pyIsSpace_upperChar,
    map_dropWhile pyUpperChar pyIsSpace pyIsSpace_upperChar]

theorem pyNormalize_idem (s : PyStr) : pyNormalize (pyNormalize s) = pyNormalize s := by
  unfold pyNormalize
  rw [pyUpper_strip_comm (pyUpper s), pyUpper_idem, pyStrip_idem]

/-! ### C1: cache TTL semantics -/

/-- C1: `get_from_cache k` returns the stored payload exactly when an entry
for `k` exists whose age is strictly below the fixed 5-minute TTL, and `None`
otherwise; `save_to_cache k v` followed immediately by `get_from_cache k`
returns `v`; once the TTL has elapsed the read returns `None` while the
stale entry is still stored (not deleted). -/
theorem cache_ttl_spec (c : Cache) (k : PyStr) (v : Json) (now tAfter : Int) :
    (get_from_cache c k now = some v ↔
      ∃ ts, dictGet c k = some (v, ts) ∧ now - ts < CACHE_TTL_MINUTES * 60)
    ∧ get_from_cache (save_to_cache c k v now) k now = some v
    ∧ (tAfter - now ≥ CACHE_TTL_MINUTES * 60 →
        get_from_cache (save_to_cache c k v now) k tAfter = none
        ∧ dictGet (save_to_cache c k v now) k = some (v, now)) := by
  refine ⟨?_, ?_, fun h => ⟨?_, ?_⟩⟩
  · cases hd : dictGet c k with
    | none =>
      rw [get_from_cache_absent c k now hd]
      constructor
      · intro hv
        exact absurd hv (by simp)
      · rintro ⟨ts, hts, _⟩
        exact absurd hts (by simp)
    | some p =>
      obtain ⟨d, ts⟩ := p
      rw [get_from_cache_lookup c k now d ts hd]
      constructor
      · intro hv
        split_ifs at hv with ht
        injection hv with hdv
        subst hdv
        exact ⟨ts, rfl, ht⟩
      · rintro ⟨ts', hts', hlt⟩
        injection hts' with hpair
        injection hpair with h1 h2
        subst h1
        subst h2
        rw [if_pos hlt]
  · rw [get_from_cache_lookup (save_to_cache c k v now) k now v now
      (dictGet_dictSet_self c k (v, now))]
    rw [if_pos (by unfold CACHE_TTL_MINUTES; omega)]
  · rw [get_from_cache_lookup (save_to_cache c k v now) k tAfter v now
      (dictGet_dictSet_self c k (v, now))]
    rw [if_neg (by unfold CACHE_TTL_MINUTES at h ⊢; omega)]
  · exact dictGet_dictSet_self c k (v, now)

theorem cache_ttl_spec_witness :
    get_from_cache (save_to_cache [] (strLit "quote_PETR4") (Json.num 37) 0)
        (strLit "quote_PETR4") 300 = none
    ∧ dictGet (save_to_cache [] (strLit "quote_PETR4") (Json.num 37) 0)
        (strLit "quote_PETR4") = some (Json.num 37, 0) :=
  (cache_ttl_spec [] (strLit "quote_PETR4") (Json.num 37) 0 300).2.2 (by decide)

/-! ### C8: normalization idempotence -/

/-- C8: ticker normalization (`ticker.upper().strip()`) is idempotent, and
the raw inputs `" petr4 "` and `"PETR4"` produce the same `quote_` cache
key, hence share one cache entry. -/
theorem normalize_idempotent_spec :
    (∀ s : PyStr, pyNormalize (pyNormalize s) = pyNormalize s)
    ∧ quoteKey (pyNormalize (strLit " petr4 ")) = quoteKey (pyNormalize (strLit "PETR4")) :=
  ⟨pyNormalize_idem, by decide⟩

/-! ### C9: save semantics and read purity -/

/-- C9: `save_to_cache k v` stores `(v, now)` under `k`, unconditionally
overwriting any prior entry for `k`, and leaves every other key unchanged;
a cache read never mutates: a request answered from the cache returns the
cache exactly as it was (and performs no upstream call), and a read does not
re-timestamp an entry, so a stale entry stays stale. -/
theorem save_overwrite_frame (c : Cache) (k k' : PyStr) (v d : Json)
    (now t₂ ts : Int) (env : Env) (tk : PyStr) :
    dictGet (save_to_cache c k v now) k = some (v, now)
    ∧ (k' ≠ k → dictGet (save_to_cache c k v now) k' = dictGet c k')
    ∧ (get_from_cache c (quoteKey (pyNormalize tk)) now = some d → truthy d = true →
        (get_quote env c now tk).2.1 = c ∧ (get_quote env c now tk).2.2 = [])
    ∧ (dictGet c k = some (d, ts) → t₂ - ts ≥ CACHE_TTL_MINUTES * 60 →
        get_from_cache c k t₂ = none) := by
  refine ⟨dictGet_dictSet_self c k (v, now),
    fun h => dictGet_dictSet_ne c k k' (v, now) h, fun h1 h2 => ?_, fun h1 h2 => ?_⟩
  · simp only [get_quote, h1]
    rw [if_pos h2]
    exact ⟨rfl, rfl⟩
  · rw [get_from_cache_lookup c k t₂ d ts h1]
    rw [if_neg (by unfold CACHE_TTL_MINUTES at h2 ⊢; omega)]

theorem save_overwrite_frame_witness :
    dictGet (save_to_cache [] (strLit "k") (Json.num 1) 0) (strLit "k") = some (Json.num 1, 0)
    ∧ dictGet (save_to_cache [(strLit "a", (Json.num 2, 0))] (strLit "k") (Json.num 1) 0)
        (strLit "a") = dictGet [(strLit "a", (Json.num 2, 0))] (strLit "a")
    ∧ ((get_quote envOk [(strLit "quote_PETR4", (Json.num 3, 0))] 0 (strLit "PETR4")).2.1
          = [(strLit "quote_PETR4", (Json.num 3, 0))]
        ∧ (get_quote envOk [(strLit "quote_PETR4", (Json.num 3, 0))] 0 (strLit "PETR4")).2.2 = [])
    ∧ get_from_cache [(strLit "quote_PETR4", (Json.num 3, 0))] (strLit "quote_PETR4") 300 = none :=
  ⟨(save_overwrite_frame [] (strLit "k") (strLit "k") (Json.num 1) Json.null 0 0 0 envOk []).1,
    (save_overwrite_frame [(strLit "a", (Json.num 2, 0))] (strLit "k") (strLit "a")
      (Json.num 1) Json.null 0 0 0 envOk []).2.1 (by decide),
    (save_overwrite_frame [(strLit "quote_PETR4", (Json.num 3, 0))] [] []
      Json.null (Json.num 3) 0 0 0 envOk (strLit "PETR4")).2.2.1 (by rfl) (by rfl),
    (save_overwrite_frame [(strLit "quote_PETR4", (Json.num 3, 0))] (strLit "quote_PETR4") []
      Json.null (Json.num 3) 0 300 0 envOk []).2.2.2 (by rfl) (by decide)⟩

/-! ### C4: upstream fetch error taxonomy -/

/-- C4: each upstream fetch fails with an error carrying the upstream HTTP
status when that status is not 200; on status 200 it fails with a 404
not-found error naming the ticker when `results` is absent or empty;
otherwise it returns exactly the first element of `results`. -/
theorem fetch_response_spec (env : Env) (tk rng : PyStr) :
    ((env.quoteResp tk).status ≠ 200 →
      fetch_quote env tk = .error ⟨(env.quoteResp tk).status, brapiErrorDetail⟩)
    ∧ ((env.quoteResp tk).status = 200 →
        ((env.quoteResp tk).results = none ∨ (env.quoteResp tk).results = some []) →
        fetch_quote env tk = .error ⟨404, notFoundDetail tk⟩)
    ∧ (∀ x xs, (env.quoteResp tk).status = 200 →
        (env.quoteResp tk).results = some (x :: xs) → fetch_quote env tk = .ok x)
    ∧ ((env.quoteDetailsResp tk).status ≠ 200 →
      fetch_quote_with_details env tk
        = .error ⟨(env.quoteDetailsResp tk).status, brapiErrorDetail⟩)
    ∧ ((env.quoteDetailsResp tk).status = 200 →
        ((env.quoteDetailsResp tk).results = none
          ∨ (env.quoteDetailsResp tk).results = some []) →
        fetch_quote_with_details env tk = .error ⟨404, notFoundDetail tk⟩)
    ∧ (∀ x xs, (env.quoteDetailsResp tk).status = 200 →
        (env.quoteDetailsResp tk).results = some (x :: xs) →
        fetch_quote_with_details env tk = .ok x)
    ∧ ((env.historicalResp tk rng).status ≠ 200 →
      fetch_historical env tk rng
        = .error ⟨(env.historicalResp tk rng).status, brapiErrorDetail⟩)
    ∧ ((env.historicalResp tk rng).status = 200 →
        ((env.historicalResp tk rng).results = none
          ∨ (env.historicalResp tk rng).results = some []) →
        fetch_historical env tk rng = .error ⟨404, notFoundDetail tk⟩)
    ∧ (∀ x xs, (env.historicalResp tk rng).status = 200 →
        (env.historicalResp tk rng).results = some (x :: xs) →
        fetch_historical env tk rng = .ok x) := by
  refine ⟨fun h => ?_, fun h hres => ?_, fun x xs h hres => ?_,
    fun h => ?_, fun h hres => ?_, fun x xs h hres => ?_,
    fun h => ?_, fun h hres => ?_, fun x xs h hres => ?_⟩
  · simp only [fetch_quote]
    rw [if_pos h]
  · simp only [fetch_quote]
    rw [if_neg (by simp [h])]
    rcases hres with h' | h' <;> simp [h']
  · simp only [fetch_quote]
    rw [if_neg (by simp [h])]
    simp [hres]
  · simp only [fetch_quote_with_details]
    rw [if_pos h]
  · simp only [fetch_quote_with_details]
    rw [if_neg (by simp [h])]
    rcases hres with h' | h' <;> simp [h']
  · simp only [fetch_quote_with_details]
    rw [if_neg (by simp [h])]
    simp [hres]
  · simp only [fetch_historical]
    rw [if_pos h]
  · simp only [fetch_historical]
    rw [if_neg (by simp [h])]
    rcases hres with h' | h' <;> simp [h']
  · simp only [fetch_historical]
    rw [if_neg (by simp [h])]
    simp [hres]

theorem fetch_response_spec_witness :
    fetch_quote envDown (strLit "PETR4") = .error ⟨500, brapiErrorDetail⟩
    ∧ fetch_quote envNoResults (strLit "PETR4")
        = .error ⟨404, notFoundDetail (strLit "PETR4")⟩
    ∧ fetch_quote envNoKey (strLit "PETR4")
        = .error ⟨404, notFoundDetail (strLit "PETR4")⟩
    ∧ fetch_quote envOk (strLit "PETR4")
        = .ok (Json.obj [("regularMarketPrice", Json.num 37)])
    ∧ fetch_quote_with_details envDown (strLit "PETR4") = .error ⟨500, brapiErrorDetail⟩
    ∧ fetch_quote_with_details envNoResults (strLit "PETR4")
        = .error ⟨404, notFoundDetail (strLit "PETR4")⟩
    ∧ fetch_quote_with_details envOk (strLit "PETR4")
        = .ok (Json.obj [("priceEarnings", Json.num 9)])
    ∧ fetch_historical envDown (strLit "PETR4") (strLit "1mo")
        = .error ⟨500, brapiErrorDetail⟩
    ∧ fetch_historical envNoKey (strLit "PETR4") (strLit "1mo")
        = .error ⟨404, notFoundDetail (strLit "PETR4")⟩
    ∧ fetch_historical envOk (strLit "PETR4") (strLit "1mo")
        = .ok (Json.obj [("historicalDataPrice", Json.num 5)]) :=
  ⟨(fetch_response_spec envDown (strLit "PETR4") (strLit "1mo")).1 (by decide),
    (fetch_response_spec envNoResults (strLit "PETR4") (strLit "1mo")).2.1 rfl (.inr rfl),
    (fetch_response_spec envNoKey (strLit "PETR4") (strLit "1mo")).2.1 rfl (.inl rfl),
    (fetch_response_spec envOk (strLit "PETR4") (strLit "1mo")).2.2.1
      (Json.obj [("regularMarketPrice", Json.num 37)]) [] rfl rfl,
    (fetch_response_spec envDown (strLit "PETR4") (strLit "1mo")).2.2.2.1 (by decide),
    (fetch_response_spec envNoResults (strLit "PETR4") (strLit "1mo")).2.2.2.2.1 rfl (.inr rfl),
    (fetch_response_spec envOk (strLit "PETR4") (strLit "1mo")).2.2.2.2.2.1
      (Json.obj [("priceEarnings", Json.num 9)]) [] rfl rfl,
    (fetch_response_spec envDown (strLit "PETR4") (strLit "1mo")).2.2.2.2.2.2.1 (by decide),
    (fetch_response_spec envNoKey (strLit "PETR4") (strLit "1mo")).2.2.2.2.2.2.2.1 rfl (.inl rfl),
    (fetch_response_spec envOk (strLit "PETR4") (strLit "1mo")).2.2.2.2.2.2.2.2
      (Json.obj [("historicalDataPrice", Json.num 5)]) [] rfl rfl⟩

/-! ### C6: fail-fast error propagation in single endpoints -/

/-- C6: when the upstream fetch fails during a single-ticker endpoint, the
error propagates to the caller unchanged, the endpoint produces no partial
result, and the cache is left exactly as it was. -/
theorem single_endpoint_error_propagation (env : Env) (c : Cache) (now : Int)
    (tk rng : PyStr) (e : HTTPError) :
    (truthyOpt (get_from_cache c (quoteKey (pyNormalize tk)) now) = false →
      fetch_quote env (pyNormalize tk) = .error e →
      get_quote env c now tk = (.error e, c, [pyNormalize tk]))
    ∧ (truthyOpt (get_from_cache c (quoteFullKey (pyNormalize tk)) now) = false →
        fetch_quote_with_details env (pyNormalize tk) = .error e →
        get_quote_full env c now tk = (.error e, c, [pyNormalize tk]))
    ∧ (truthyOpt (get_from_cache c (historyKey (pyNormalize tk) rng) now) = false →
        fetch_historical env (pyNormalize tk) rng = .error e →
        get_history env c now tk rng = (.error e, c, [pyNormalize tk])) := by
  refine ⟨fun hmiss hfail => ?_, fun hmiss hfail => ?_, fun hmiss hfail => ?_⟩
  · cases hc : get_from_cache c (quoteKey (pyNormalize tk)) now with
    | none => simp [get_quote, hc, hfail]
    | some d =>
      rw [hc] at hmiss
      simp only [truthyOpt] at hmiss
      simp [get_quote, hc, hmiss, hfail]
  · cases hc : get_from_cache c (quoteFullKey (pyNormalize tk)) now with
    | none => simp [get_quote_full, hc, hfail]
    | some d =>
      rw [hc] at hmiss
      simp only [truthyOpt] at hmiss
      simp [get_quote_full, hc, hmiss, hfail]
  · cases hc : get_from_cache c (historyKey (pyNormalize tk) rng) now with
    | none => simp [get_history, hc, hfail]
    | some d =>
      rw [hc] at hmiss
      simp only [truthyOpt] at hmiss
      simp [get_history, hc, hmiss, hfail]

theorem single_endpoint_error_propagation_witness :
    get_quote envDown [] 0 (strLit "PETR4")
      = (.error ⟨500, brapiErrorDetail⟩, [], [strLit "PETR4"])
    ∧ get_quote_full envDown [] 0 (strLit "PETR4")
      = (.error ⟨500, brapiErrorDetail⟩, [], [strLit "PETR4"])
    ∧ get_history envDown [] 0 (strLit "PETR4") (strLit "1mo")
      = (.error ⟨500, brapiErrorDetail⟩, [], [strLit "PETR4"]) :=
  ⟨(single_endpoint_error_propagation envDown [] 0 (strLit "PETR4") (strLit "1mo")
      ⟨500, brapiErrorDetail⟩).1 (by decide) rfl,
    (single_endpoint_error_propagation envDown [] 0 (strLit "PETR4") (strLit "1mo")
      ⟨500, brapiErrorDetail⟩).2.1 (by decide) rfl,
    (single_endpoint_error_propagation envDown [] 0 (strLit "PETR4") (strLit "1mo")
      ⟨500, brapiErrorDetail⟩).2.2 (by decide) rfl⟩

/-! ### Helper lemmas about the hit and miss paths of the endpoints -/

theorem get_quote_hit (env : Env) (c : Cache) (now : Int) (tk : PyStr) (v : Json)
    (hc : get_from_cache c (quoteKey (pyNormalize tk)) now = some v)
    (ht : truthy v = true) :
    get_quote env c now tk = (.ok ⟨"cache", v⟩, c, []) := by
  simp [get_quote, hc, ht]

theorem get_quote_miss_ok (env : Env) (c : Cache) (now : Int) (tk : PyStr) (d : Json)
    (hmiss : truthyOpt (get_from_cache c (quoteKey (pyNormalize tk)) now) = false)
    (hok : fetch_quote env (pyNormalize tk) = .ok d) :
    get_quote env c now tk = (.ok ⟨"api", d⟩,
      save_to_cache c (quoteKey (pyNormalize tk)) d now, [pyNormalize tk]) := by
  cases hc : get_from_cache c (quoteKey (pyNormalize tk)) now with
  | none => simp [get_quote, hc, hok]
  | some w =>
    rw [hc] at hmiss
    simp only [truthyOpt] at hmiss
    simp [get_quote, hc, hmiss, hok]

theorem get_quote_full_hit (env : Env) (c : Cache) (now : Int) (tk : PyStr) (v : Json)
    (hc : get_from_cache c (quoteFullKey (pyNormalize tk)) now = some v)
    (ht : truthy v = true) :
    get_quote_full env c now tk = (.ok ⟨"cache", v⟩, c, []) := by
  simp [get_quote_full, hc, ht]

theorem get_quote_full_miss_ok (env : Env) (c : Cache) (now : Int) (tk : PyStr) (d : Json)
    (hmiss : truthyOpt (get_from_cache c (quoteFullKey (pyNormalize tk)) now) = false)
    (hok : fetch_quote_with_details env (pyNormalize tk) = .ok d) :
    get_quote_full env c now tk = (.ok ⟨"api", d⟩,
      save_to_cache c (quoteFullKey (pyNormalize tk)) d now, [pyNormalize tk]) := by
  cases hc : get_from_cache c (quoteFullKey (pyNormalize tk)) now with
  | none => simp [get_quote_full, hc, hok]
  | some w =>
    rw [hc] at hmiss
    simp only [truthyOpt] at hmiss
    simp [get_quote_full, hc, hmiss, hok]

theorem get_history_hit (env : Env) (c : Cache) (now : Int) (tk rng : PyStr) (v : Json)
    (hc : get_from_cache c (historyKey (pyNormalize tk) rng) now = some v)
    (ht : truthy v = true) :
    get_history env c now tk rng = (.ok ⟨"cache", v⟩, c, []) := by
  simp [get_history, hc, ht]

theorem get_history_miss_ok (env : Env) (c : Cache) (now : Int) (tk rng : PyStr) (d : Json)
    (hmiss : truthyOpt (get_from_cache c (historyKey (pyNormalize tk) rng) now) = false)
    (hok : fetch_historical env (pyNormalize tk) rng = .ok d) :
    get_history env c now tk rng = (.ok ⟨"api", d⟩,
      save_to_cache c (historyKey (pyNormalize tk) rng) d now, [pyNormalize tk]) := by
  cases hc : get_from_cache c (historyKey (pyNormalize tk) rng) now with
  | none => simp [get_history, hc, hok]
  | some w =>
    rw [hc] at hmiss
    simp only [truthyOpt] at hmiss
    simp [get_history, hc, hmiss, hok]

/-! ### C2: provenance tagging of the single endpoints -/

/-- C2 (counterexample): on a fresh cache miss with a successful upstream
fetch, `get_quote` returns the provenance string `"api"`, not `"upstream"`
as the claim states. -/
theorem quote_source_api_not_upstream :
    (get_quote envOk [] 0 (strLit "PETR4")).1
      = .ok ⟨"api", Json.obj [("regularMarketPrice", Json.num 37)]⟩
    ∧ ("api" : String) ≠ "upstream" :=
  ⟨rfl, by decide⟩

/-- C2 (amended): on a fresh cache hit with a truthy payload each single
endpoint returns `{source: "cache", data}` without calling upstream; on a
miss it calls the corresponding upstream fetch, stores the result under the
endpoint's key, and returns `{source: "api", data}`. -/
theorem endpoints_cache_then_api (env : Env) (c : Cache) (now : Int)
    (tk rng : PyStr) (v d : Json) :
    (get_from_cache c (quoteKey (pyNormalize tk)) now = some v → truthy v = true →
      get_quote env c now tk = (.ok ⟨"cache", v⟩, c, []))
    ∧ (truthyOpt (get_from_cache c (quoteKey (pyNormalize tk)) now) = false →
        fetch_quote env (pyNormalize tk) = .ok d →
        get_quote env c now tk = (.ok ⟨"api", d⟩,
          save_to_cache c (quoteKey (pyNormalize tk)) d now, [pyNormalize tk]))
    ∧ (get_from_cache c (quoteFullKey (pyNormalize tk)) now = some v → truthy v = true →
        get_quote_full env c now tk = (.ok ⟨"cache", v⟩, c, []))
    ∧ (truthyOpt (get_from_cache c (quoteFullKey (pyNormalize tk)) now) = false →
        fetch_quote_with_details env (pyNormalize tk) = .ok d →
        get_quote_full env c now tk = (.ok ⟨"api", d⟩,
          save_to_cache c (quoteFullKey (pyNormalize tk)) d now, [pyNormalize tk]))
    ∧ (get_from_cache c (historyKey (pyNormalize tk) rng) now = some v → truthy v = true →
        get_history env c now tk rng = (.ok ⟨"cache", v⟩, c, []))
    ∧ (truthyOpt (get_from_cache c (historyKey (pyNormalize tk) rng) now) = false →
        fetch_historical env (pyNormalize tk) rng = .ok d →
        get_history env c now tk rng = (.ok ⟨"api", d⟩,
          save_to_cache c (historyKey (pyNormalize tk) rng) d now, [pyNormalize tk])) := by
  exact ⟨get_quote_hit env c now tk v, get_quote_miss_ok env c now tk d,
    get_quote_full_hit env c now tk v, get_quote_full_miss_ok env c now tk d,
    get_history_hit env c now tk rng v, get_history_miss_ok env c now tk rng d⟩

theorem endpoints_cache_then_api_witness :
    get_quote envOk [(strLit "quote_PETR4", (Json.num 3, 0))] 0 (strLit "PETR4")
      = (.ok ⟨"cache", Json.num 3⟩, [(strLit "quote_PETR4", (Json.num 3, 0))], [])
    ∧ get_quote envOk [] 0 (strLit "PETR4")
      = (.ok ⟨"api", Json.obj [("regularMarketPrice", Json.num 37)]⟩,
          save_to_cache [] (quoteKey (pyNormalize (strLit "PETR4")))
            (Json.obj [("regularMarketPrice", Json.num 37)]) 0,
          [pyNormalize (strLit "PETR4")])
    ∧ get_quote_full envOk [(strLit "quote_full_PETR4", (Json.num 4, 0))] 0 (strLit "PETR4")
      = (.ok ⟨"cache", Json.num 4⟩, [(strLit "quote_full_PETR4", (Json.num 4, 0))], [])
    ∧ get_quote_full envOk [] 0 (strLit "PETR4")
      = (.ok ⟨"api", Json.obj [("priceEarnings", Json.num 9)]⟩,
          save_to_cache [] (quoteFullKey (pyNormalize (strLit "PETR4")))
            (Json.obj [("priceEarnings", Json.num 9)]) 0,
          [pyNormalize (strLit "PETR4")])
    ∧ get_history envOk [(strLit "history_PETR4_1mo", (Json.num 5, 0))] 0
        (strLit "PETR4") (strLit "1mo")
      = (.ok ⟨"cache", Json.num 5⟩, [(strLit "history_PETR4_1mo", (Json.num 5, 0))], [])
    ∧ get_history envOk [] 0 (strLit "PETR4") (strLit "1mo")
      = (.ok ⟨"api", Json.obj [("historicalDataPrice", Json.num 5)]⟩,
          save_to_cache [] (historyKey (pyNormalize (strLit "PETR4")) (strLit "1mo"))
            (Json.obj [("historicalDataPrice", Json.num 5)]) 0,
          [pyNormalize (strLit "PETR4")]) :=
  ⟨(endpoints_cache_then_api envOk [(strLit "quote_PETR4", (Json.num 3, 0))] 0
      (strLit "PETR4") (strLit "1mo") (Json.num 3) Json.null).1 rfl rfl,
    (endpoints_cache_then_api envOk [] 0 (strLit "PETR4") (strLit "1mo") Json.null
      (Json.obj [("regularMarketPrice", Json.num 37)])).2.1 rfl rfl,
    (endpoints_cache_then_api envOk [(strLit "quote_full_PETR4", (Json.num 4, 0))] 0
      (strLit "PETR4") (strLit "1mo") (Json.num 4) Json.null).2.2.1 rfl rfl,
    (endpoints_cache_then_api envOk [] 0 (strLit "PETR4") (strLit "1mo") Json.null
      (Json.obj [("priceEarnings", Json.num 9)])).2.2.2.1 rfl rfl,
    (endpoints_cache_then_api envOk [(strLit "history_PETR4_1mo", (Json.num 5, 0))] 0
      (strLit "PETR4") (strLit "1mo") (Json.num 5) Json.null).2.2.2.2.1 rfl rfl,
    (endpoints_cache_then_api envOk [] 0 (strLit "PETR4") (strLit "1mo") Json.null
      (Json.obj [("historicalDataPrice", Json.num 5)])).2.2.2.2.2 rfl rfl⟩

/-! ### C10: the hit test is payload truthiness -/

/-- C10: a cache entry whose stored payload is falsy (for example the empty
dict) is treated as a miss even when fresh: every endpoint, and the batch
loop, calls upstream again. -/
theorem falsy_hit_treated_as_miss (env : Env) (c : Cache) (now : Int)
    (tk rng : PyStr) (v : Json) :
    (get_from_cache c (quoteKey (pyNormalize tk)) now = some v → truthy v = false →
      (get_quote env c now tk).2.2 = [pyNormalize tk])
    ∧ (get_from_cache c (quoteFullKey (pyNormalize tk)) now = some v → truthy v = false →
        (get_quote_full env c now tk).2.2 = [pyNormalize tk])
    ∧ (get_from_cache c (historyKey (pyNormalize tk) rng) now = some v → truthy v = false →
        (get_history env c now tk rng).2.2 = [pyNormalize tk])
    ∧ (get_from_cache c (quoteKey tk) now = some v → truthy v = false →
        (quotesLoop env now c [tk]).2.2 = [tk]) := by
  refine ⟨fun hc ht => ?_, fun hc ht => ?_, fun hc ht => ?_, fun hc ht => ?_⟩
  · cases hf : fetch_quote env (pyNormalize tk) <;>
      simp [get_quote, hc, ht, hf]
  · cases hf : fetch_quote_with_details env (pyNormalize tk) <;>
      simp [get_quote_full, hc, ht, hf]
  · cases hf : fetch_historical env (pyNormalize tk) rng <;>
      simp [get_history, hc, ht, hf]
  · cases hf : fetch_quote env tk <;>
      simp [quotesLoop, hc, ht, hf]

theorem falsy_hit_treated_as_miss_witness :
    (get_quote envOk [(strLit "quote_PETR4", (Json.obj [], 0))] 0 (strLit "PETR4")).2.2
      = [pyNormalize (strLit "PETR4")]
    ∧ (get_quote_full envOk [(strLit "quote_full_PETR4", (Json.obj [], 0))] 0
        (strLit "PETR4")).2.2 = [pyNormalize (strLit "PETR4")]
    ∧ (get_history envOk [(strLit "history_PETR4_1mo", (Json.obj [], 0))] 0
        (strLit "PETR4") (strLit "1mo")).2.2 = [pyNormalize (strLit "PETR4")]
    ∧ (quotesLoop envOk 0 [(strLit "quote_PETR4", (Json.obj [], 0))]
        [strLit "PETR4"]).2.2 = [strLit "PETR4"] :=
  ⟨(falsy_hit_treated_as_miss envOk [(strLit "quote_PETR4", (Json.obj [], 0))] 0
      (strLit "PETR4") (strLit "1mo") (Json.obj [])).1 rfl rfl,
    (falsy_hit_treated_as_miss envOk [(strLit "quote_full_PETR4", (Json.obj [], 0))] 0
      (strLit "PETR4") (strLit "1mo") (Json.obj [])).2.1 rfl rfl,
    (falsy_hit_treated_as_miss envOk [(strLit "history_PETR4_1mo", (Json.obj [], 0))] 0
      (strLit "PETR4") (strLit "1mo") (Json.obj [])).2.2.1 rfl rfl,
    (falsy_hit_treated_as_miss envOk [(strLit "quote_PETR4", (Json.obj [], 0))] 0
      (strLit "PETR4") (strLit "1mo") (Json.obj [])).2.2.2 rfl rfl⟩

/-! ### C7: idempotent refresh within the TTL -/

/-- C7 (counterexample): when upstream answers with the empty object, the
first `get_quote` call succeeds via upstream, yet an immediate second call
issues another upstream call and again answers `"api"`, not `"cache"` —
refuting the claim for tickers whose fetched payload is falsy. -/
theorem second_call_refetches_on_falsy :
    (get_quote envFalsy [] 0 (strLit "PETR4")).1 = .ok ⟨"api", Json.obj []⟩
    ∧ (get_quote envFalsy (get_quote envFalsy [] 0 (strLit "PETR4")).2.1 0
        (strLit "PETR4")).2.2 = [strLit "PETR4"]
    ∧ [strLit "PETR4"] ≠ ([] : List PyStr)
    ∧ (get_quote envFalsy (get_quote envFalsy [] 0 (strLit "PETR4")).2.1 0
        (strLit "PETR4")).1 = .ok ⟨"api", Json.obj []⟩
    ∧ ("api" : String) ≠ "cache" :=
  ⟨rfl, rfl, by decide, rfl, by decide⟩

/-- C7 (amended): for every ticker whose first `get_quote` call succeeds via
upstream with a truthy payload, a second call within the TTL is answered
from the cache with the same payload and issues no upstream call; across
the two calls exactly one upstream call is made. -/
theorem second_call_cache_hit (env : Env) (c : Cache) (now t₂ : Int)
    (tk : PyStr) (d : Json)
    (hmiss : truthyOpt (get_from_cache c (quoteKey (pyNormalize tk)) now) = false)
    (hfetch : fetch_quote env (pyNormalize tk) = .ok d)
    (htruthy : truthy d = true)
    (hfresh : t₂ - now < CACHE_TTL_MINUTES * 60) :
    get_quote env c now tk = (.ok ⟨"api", d⟩,
      save_to_cache c (quoteKey (pyNormalize tk)) d now, [pyNormalize tk])
    ∧ get_quote env (save_to_cache c (quoteKey (pyNormalize tk)) d now) t₂ tk
      = (.ok ⟨"cache", d⟩, save_to_cache c (quoteKey (pyNormalize tk)) d now, [])
    ∧ (get_quote env c now tk).2.2.length
        + (get_quote env (save_to_cache c (quoteKey (pyNormalize tk)) d now) t₂ tk).2.2.length
      = 1 := by
  have h1 : get_quote env c now tk = (.ok ⟨"api", d⟩,
      save_to_cache c (quoteKey (pyNormalize tk)) d now, [pyNormalize tk]) :=
    get_quote_miss_ok env c now tk d hmiss hfetch
  have hds : dictGet (save_to_cache c (quoteKey (pyNormalize tk)) d now)
      (quoteKey (pyNormalize tk)) = some (d, now) :=
    dictGet_dictSet_self c (quoteKey (pyNormalize tk)) (d, now)
  have hc2 : get_from_cache (save_to_cache c (quoteKey (pyNormalize tk)) d now)
      (quoteKey (pyNormalize tk)) t₂ = some d := by
    rw [get_from_cache_lookup _ _ t₂ d now hds]
    rw [if_pos hfresh]
  have h2 : get_quote env (save_to_cache c (quoteKey (pyNormalize tk)) d now) t₂ tk
      = (.ok ⟨"cache", d⟩, save_to_cache c (quoteKey (pyNormalize tk)) d now, []) :=
    get_quote_hit env _ t₂ tk d hc2 htruthy
  refine ⟨h1, h2, ?_⟩
  rw [h1, h2]
  rfl

theorem second_call_cache_hit_witness :
    get_quote envOk [] 0 (strLit "PETR4")
      = (.ok ⟨"api", Json.obj [("regularMarketPrice", Json.num 37)]⟩,
          save_to_cache [] (quoteKey (pyNormalize (strLit "PETR4")))
            (Json.obj [("regularMarketPrice", Json.num 37)]) 0,
          [pyNormalize (strLit "PETR4")])
    ∧ get_quote envOk (save_to_cache [] (quoteKey (pyNormalize (strLit "PETR4")))
          (Json.obj [("regularMarketPrice", Json.num 37)]) 0) 10 (strLit "PETR4")
      = (.ok ⟨"cache", Json.obj [("regularMarketPrice", Json.num 37)]⟩,
          save_to_cache [] (quoteKey (pyNormalize (strLit "PETR4")))
            (Json.obj [("regularMarketPrice", Json.num 37)]) 0, [])
    ∧ (get_quote envOk [] 0 (strLit "PETR4")).2.2.length
        + (get_quote envOk (save_to_cache [] (quoteKey (pyNormalize (strLit "PETR4")))
            (Json.obj [("regularMarketPrice", Json.num 37)]) 0) 10 (strLit "PETR4")).2.2.length
      = 1 :=
  second_call_cache_hit envOk [] 0 10 (strLit "PETR4")
    (Json.obj [("regularMarketPrice", Json.num 37)]) rfl rfl rfl (by decide)

/-! ### C3: injectivity of the cache-key construction -/

/-- C3 (counterexample): the history key construction collides: the distinct
logical requests `history("A_B", "1mo")` and `history("A", "B_1mo")`
produce the same cache key, although both tickers are fixed points of
normalization (legitimate normalized tickers). -/
theorem history_key_collision :
    cacheKeyOf (.history (strLit "A_B") (strLit "1mo"))
      = cacheKeyOf (.history (strLit "A") (strLit "B_1mo"))
    ∧ Req.history (strLit "A_B") (strLit "1mo")
        ≠ Req.history (strLit "A") (strLit "B_1mo")
    ∧ pyNormalize (strLit "A_B") = strLit "A_B"
    ∧ pyNormalize (strLit "A") = strLit "A" :=
  ⟨by decide, by decide, by decide, by decide⟩

theorem append_sep_inj :
    ∀ (a c b d : List Nat), 95 ∉ a → 95 ∉ c →
      a ++ 95 :: b = c ++ 95 :: d → a = c ∧ b = d := by
  intro a
  induction a with
  | nil =>
    intro c b d _ hc h
    cases c with
    | nil => simpa using h
    | cons y c' =>
      simp only [List.nil_append, List.cons_append, List.cons.injEq] at h
      obtain ⟨hy, _⟩ := h
      subst hy
      exact absurd (List.mem_cons_self _ _) hc
  | cons x a' ih =>
    intro c b d ha hc h
    cases c with
    | nil =>
      simp only [List.cons_append, List.nil_append, List.cons.injEq] at h
      obtain ⟨hx, _⟩ := h
      subst hx
      exact absurd (List.mem_cons_self _ _) ha
    | cons y c' =>
      simp only [List.cons_append, List.cons.injEq] at h
      obtain ⟨hxy, h'⟩ := h
      subst hxy
      obtain ⟨h1, h2⟩ := ih c' b d (fun hm => ha (List.mem_cons_of_mem _ hm))
        (fun hm => hc (List.mem_cons_of_mem _ hm)) h'
      exact ⟨by rw [h1], h2⟩

/-- C3 (amended): the cache-key construction is injective over logical
requests whose ticker (and, for history, range token) contains no
underscore — in particular over alphanumeric tickers and the documented
range tokens; with underscores in a history ticker or range, distinct
requests can collide. -/
theorem cacheKey_injective (r₁ r₂ : Req) (h₁ : underscoreFree r₁)
    (h₂ : underscoreFree r₂) : cacheKeyOf r₁ = cacheKeyOf r₂ ↔ r₁ = r₂ := by
  have hq : strLit "quote_" = [113, 117, 111, 116, 101, 95] := by decide
  have hqf : strLit "quote_full_"
      = [113, 117, 111, 116, 101, 95, 102, 117, 108, 108, 95] := by decide
  have hh : strLit "history_" = [104, 105, 115, 116, 111, 114, 121, 95] := by decide
  have hu : strLit "_" = [95] := by decide
  constructor
  · intro h
    cases r₁ with
    | quote t₁ =>
      cases r₂ with
      | quote t₂ =>
        simp only [cacheKeyOf, quoteKey, hq] at h
        simp only [List.cons_append, List.nil_append, List.cons.injEq, true_and] at h
        rw [h]
      | quote_full t₂ =>
        exfalso
        simp only [cacheKeyOf, quoteKey, quoteFullKey, hq, hqf] at h
        simp only [List.cons_append, List.nil_append, List.cons.injEq, true_and] at h
        apply h₁
        rw [h]
        simp
      | history t₂ r₂ =>
        exfalso
        simp only [cacheKeyOf, quoteKey, historyKey, hq, hh] at h
        simp only [List.cons_append, List.nil_append, List.cons.injEq] at h
        exact absurd h.1 (by decide)
    | quote_full t₁ =>
      cases r₂ with
      | quote t₂ =>
        exfalso
        simp only [cacheKeyOf, quoteKey, quoteFullKey, hq, hqf] at h
        simp only [List.cons_append, List.nil_append, List.cons.injEq, true_and] at h
        apply h₂
        rw [← h]
        simp
      | quote_full t₂ =>
        simp only [cacheKeyOf, quoteFullKey, hqf] at h
        simp only [List.cons_append, List.nil_append, List.cons.injEq, true_and] at h
        rw [h]
      | history t₂ r₂ =>
        exfalso
        simp only [cacheKeyOf, quoteFullKey, historyKey, hqf, hh] at h
        simp only [List.cons_append, List.nil_append, List.cons.injEq] at h
        exact absurd h.1 (by decide)
    | history t₁ r₁ =>
      cases r₂ with
      | quote t₂ =>
        exfalso
        simp only [cacheKeyOf, quoteKey, historyKey, hq, hh] at h
        simp only [List.cons_append, List.nil_append, List.cons.injEq] at h
        exact absurd h.1 (by decide)
      | quote_full t₂ =>
        exfalso
        simp only [cacheKeyOf, quoteFullKey, historyKey, hqf, hh] at h
        simp only [List.cons_append, List.nil_append, List.cons.injEq] at h
        exact absurd h.1 (by decide)
      | history t₂ r₂ =>
        obtain ⟨ht₁, hr₁⟩ := h₁
        obtain ⟨ht₂, hr₂⟩ := h₂
        simp only [cacheKeyOf, historyKey, hh, hu, List.append_assoc,
          List.singleton_append] at h
        simp only [List.cons_append, List.nil_append, List.cons.injEq, true_and] at h
        obtain ⟨hT, hR⟩ := append_sep_inj t₁ t₂ r₁ r₂ ht₁ ht₂ h
        rw [hT, hR]
  · rintro rfl
    rfl

theorem cacheKey_injective_witness :
    (cacheKeyOf (.quote (strLit "PETR4")) = cacheKeyOf (.quote_full (strLit "PETR4"))
      ↔ Req.quote (strLit "PETR4") = Req.quote_full (strLit "PETR4"))
    ∧ (cacheKeyOf (.history (strLit "PETR4") (strLit "1mo"))
        = cacheKeyOf (.history (strLit "VALE3") (strLit "1mo"))
      ↔ Req.history (strLit "PETR4") (strLit "1mo")
        = Req.history (strLit "VALE3") (strLit "1mo")) :=
  ⟨cacheKey_injective (.quote (strLit "PETR4")) (.quote_full (strLit "PETR4"))
      (show (95 : Nat) ∉ strLit "PETR4" by decide)
      (show (95 : Nat) ∉ strLit "PETR4" by decide),
    cacheKey_injective (.history (strLit "PETR4") (strLit "1mo"))
      (.history (strLit "VALE3") (strLit "1mo"))
      ⟨by decide, by decide⟩ ⟨by decide, by decide⟩⟩

/-! ### C5: batch order, duplicates, empties and failure isolation -/

theorem quotesLoop_tickers (env : Env) (now : Int) :
    ∀ (l : List PyStr) (c : Cache),
      (quotesLoop env now c l).1.map entryTicker = l := by
  intro l
  induction l with
  | nil => intro c; rfl
  | cons tk rest ih =>
    intro c
    cases hc : get_from_cache c (quoteKey tk) now with
    | none =>
      cases hf : fetch_quote env tk <;>
        simp [quotesLoop, hc, hf, entryTicker, ih]
    | some v =>
      cases htv : truthy v with
      | true => simp [quotesLoop, hc, htv, entryTicker, ih]
      | false =>
        cases hf : fetch_quote env tk <;>
          simp [quotesLoop, hc, htv, hf, entryTicker, ih]

theorem quotesLoop_append (env : Env) (now : Int) (l₁ l₂ : List PyStr) :
    ∀ c : Cache,
      quotesLoop env now c (l₁ ++ l₂)
        = ((quotesLoop env now c l₁).1
            ++ (quotesLoop env now (quotesLoop env now c l₁).2.1 l₂).1,
           (quotesLoop env now (quotesLoop env now c l₁).2.1 l₂).2.1,
           (quotesLoop env now c l₁).2.2
            ++ (quotesLoop env now (quotesLoop env now c l₁).2.1 l₂).2.2) := by
  induction l₁ with
  | nil => intro c; rfl
  | cons tk rest ih =>
    intro c
    simp only [List.cons_append, quotesLoop, List.append_eq]
    rw [ih]
    simp [List.append_assoc]

theorem quotesLoop_cons_fail (env : Env) (now : Int) (c : Cache)
    (tk : PyStr) (rest : List PyStr) (e : HTTPError)
    (hmiss : truthyOpt (get_from_cache c (quoteKey tk) now) = false)
    (hfail : fetch_quote env tk = .error e) :
    quotesLoop env now c (tk :: rest)
      = (.err tk e :: (quotesLoop env now c rest).1,
         (quotesLoop env now c rest).2.1,
         tk :: (quotesLoop env now c rest).2.2) := by
  cases hc : get_from_cache c (quoteKey tk) now with
  | none => simp [quotesLoop, hc, hfail]
  | some v =>
    rw [hc] at hmiss
    simp only [truthyOpt] at hmiss
    simp [quotesLoop, hc, hmiss, hfail]

/-- C5: the batch endpoint returns one outcome per comma-separated segment
of the raw input, in input order, preserving duplicates and empty-after-trim
segments as literal empty-string tickers (each entry is labelled with its
normalized ticker); an upstream failure for one ticker is recorded as an
error record in its position, leaves the cache unchanged, and the remaining
outcomes are exactly those the batch produces without the failing element. -/
theorem batch_order_isolation (env : Env) (c : Cache) (now : Int)
    (raw : PyStr) (l₁ l₂ : List PyStr) (tk : PyStr) (e : HTTPError) :
    ((get_multiple_quotes env c now raw).1.map entryTicker
      = (pySplit 44 raw).map pyNormalizeBatch)
    ∧ ((pySplit 44 raw).map pyNormalizeBatch = l₁ ++ tk :: l₂ →
        truthyOpt (get_from_cache (quotesLoop env now c l₁).2.1 (quoteKey tk) now)
          = false →
        fetch_quote env tk = .error e →
        (get_multiple_quotes env c now raw).1
          = (quotesLoop env now c l₁).1
              ++ .err tk e :: (quotesLoop env now (quotesLoop env now c l₁).2.1 l₂).1
        ∧ (get_multiple_quotes env c now raw).2.1
          = (quotesLoop env now (quotesLoop env now c l₁).2.1 l₂).2.1
        ∧ (quotesLoop env now c (l₁ ++ l₂)).1
          = (quotesLoop env now c l₁).1
              ++ (quotesLoop env now (quotesLoop env now c l₁).2.1 l₂).1) := by
  constructor
  · exact quotesLoop_tickers env now ((pySplit 44 raw).map pyNormalizeBatch) c
  · intro hsplit hmiss hfail
    have hstep := quotesLoop_cons_fail env now (quotesLoop env now c l₁).2.1
      tk l₂ e hmiss hfail
    refine ⟨?_, ?_, ?_⟩
    · show (quotesLoop env now c ((pySplit 44 raw).map pyNormalizeBatch)).1 = _
      rw [hsplit, quotesLoop_append env now l₁ (tk :: l₂) c, hstep]
    · show (quotesLoop env now c ((pySplit 44 raw).map pyNormalizeBatch)).2.1 = _
      rw [hsplit, quotesLoop_append env now l₁ (tk :: l₂) c, hstep]
    · rw [quotesLoop_append env now l₁ l₂ c]

theorem batch_order_isolation_witness :
    (get_multiple_quotes envBatch [] 0 (strLit "PETR4,BAD,VALE3")).1
      = (quotesLoop envBatch 0 [] [strLit "PETR4"]).1
          ++ .err (strLit "BAD") ⟨404, notFoundDetail (strLit "BAD")⟩
            :: (quotesLoop envBatch 0 (quotesLoop envBatch 0 [] [strLit "PETR4"]).2.1
                [strLit "VALE3"]).1
    ∧ (get_multiple_quotes envBatch [] 0 (strLit "PETR4,BAD,VALE3")).2.1
      = (quotesLoop envBatch 0 (quotesLoop envBatch 0 [] [strLit "PETR4"]).2.1
          [strLit "VALE3"]).2.1
    ∧ (quotesLoop envBatch 0 [] ([strLit "PETR4"] ++ [strLit "VALE3"])).1
      = (quotesLoop envBatch 0 [] [strLit "PETR4"]).1
          ++ (quotesLoop envBatch 0 (quotesLoop envBatch 0 [] [strLit "PETR4"]).2.1
              [strLit "VALE3"]).1 :=
  (batch_order_isolation envBatch [] 0 (strLit "PETR4,BAD,VALE3")
    [strLit "PETR4"] [strLit "VALE3"] (strLit "BAD")
    ⟨404, notFoundDetail (strLit "BAD")⟩).2 (by decide) (by decide) rfl
